import Mathlib

/-!
Verification development for the PetGroove job-orchestration service.

The definitions below are a shallow embedding of the repository's source:
  - job_store.py     : the in-memory JobStore (create / get / update),
  - main.py          : the FastAPI service variant backed by SQLModel
                       (create_job, get_job, _process_job,
                        _prepare_prompt_image, _render_key, _log_key),
  - runway_client.py : the generation provider's polling loop
                       (_wait_for_task).
Stores are modelled as maps from id to record, machine bytes as Nat values
below 256, and the external world (HTTP responses, the generation provider,
the storage backend) as explicit environment records consumed by the
pipeline.  Fallible code returns Except or Option.
-/

deriving instance DecidableEq for Except

/- ----------------------------------------------------------------- -/
/- Base64 (Python base64.b64encode over the standard alphabet).      -/
/- ----------------------------------------------------------------- -/

/-- Character of the standard base64 alphabet at index n (n < 64). -/
def b64Char (n : Nat) : Char :=
  if n < 26 then Char.ofNat (65 + n)
  else if n < 52 then Char.ofNat (97 + (n - 26))
  else if n < 62 then Char.ofNat (48 + (n - 52))
  else if n = 62 then '+'
  else '/'

/-- Index of a character in the standard base64 alphabet. -/
def b64Val (c : Char) : Option Nat :=
  if 'A' ≤ c ∧ c ≤ 'Z' then some (c.toNat - 65)
  else if 'a' ≤ c ∧ c ≤ 'z' then some (c.toNat - 97 + 26)
  else if '0' ≤ c ∧ c ≤ '9' then some (c.toNat - 48 + 52)
  else if c = '+' then some 62
  else if c = '/' then some 63
  else none

/-- Base64-encode a byte list (bytes are Nat values below 256), with
padding, exactly as Python base64.b64encode does. -/
def b64EncodeList : List Nat → List Char
  | [] => []
  | [b0] =>
      [b64Char (b0 / 4), b64Char (b0 % 4 * 16), '=', '=']
  | [b0, b1] =>
      [b64Char (b0 / 4), b64Char (b0 % 4 * 16 + b1 / 16),
       b64Char (b1 % 16 * 4), '=']
  | b0 :: b1 :: b2 :: rest =>
      b64Char (b0 / 4) :: b64Char (b0 % 4 * 16 + b1 / 16) ::
      b64Char (b1 % 16 * 4 + b2 / 64) :: b64Char (b2 % 64) ::
      b64EncodeList rest

/-- Base64-decode a character list; none on malformed input. -/
def b64DecodeList : List Char → Option (List Nat)
  | c0 :: c1 :: c2 :: c3 :: rest => do
      let v0 ← b64Val c0
      let v1 ← b64Val c1
      if c2 = '=' then
        if c3 = '=' ∧ rest = [] then pure [v0 * 4 + v1 / 16] else none
      else do
        let v2 ← b64Val c2
        if c3 = '=' then
          if rest = [] then pure [(v0 * 4 + v1 / 16), (v1 % 16 * 16 + v2 / 4)] else none
        else do
          let v3 ← b64Val c3
          let tl ← b64DecodeList rest
          pure ((v0 * 4 + v1 / 16) :: (v1 % 16 * 16 + v2 / 4) :: (v2 % 4 * 64 + v3) :: tl)
  | [] => some []
  | _ => none

/-- String-level base64 encoding. -/
def b64Encode (bs : List Nat) : String := String.mk (b64EncodeList bs)

/-- String-level base64 decoding. -/
def b64Decode (s : String) : Option (List Nat) := b64DecodeList s.data

theorem b64Char_ne_eq {n : Nat} (h : n < 64) : b64Char n ≠ '=' := by
  interval_cases n <;> decide

theorem b64Val_b64Char {n : Nat} (h : n < 64) : b64Val (b64Char n) = some n := by
  interval_cases n <;> decide

theorem b64_roundtrip :
    ∀ bs : List Nat, (∀ b ∈ bs, b < 256) →
      b64DecodeList (b64EncodeList bs) = some bs
  | [], _ => rfl
  | [b0], h => by
      have hb0 : b0 < 256 := h b0 (by simp)
      simp only [b64EncodeList, b64DecodeList,
        b64Val_b64Char (show b0 / 4 < 64 by omega),
        b64Val_b64Char (show b0 % 4 * 16 < 64 by omega)]
      simp only [Option.bind_eq_bind, Option.some_bind, if_pos, and_self, ite_true, pure]
      have e0 : b0 / 4 * 4 + b0 % 4 * 16 / 16 = b0 := by omega
      rw [e0]
  | [b0, b1], h => by
      have hb0 : b0 < 256 := h b0 (by simp)
      have hb1 : b1 < 256 := h b1 (by simp)
      simp only [b64EncodeList, b64DecodeList,
        b64Val_b64Char (show b0 / 4 < 64 by omega),
        b64Val_b64Char (show b0 % 4 * 16 + b1 / 16 < 64 by omega)]
      simp only [Option.bind_eq_bind, Option.some_bind]
      rw [if_neg (b64Char_ne_eq (show b1 % 16 * 4 < 64 by omega))]
      rw [b64Val_b64Char (show b1 % 16 * 4 < 64 by omega)]
      simp only [Option.some_bind, ite_true, pure]
      have e0 : b0 / 4 * 4 + (b0 % 4 * 16 + b1 / 16) / 16 = b0 := by omega
      have e1 : (b0 % 4 * 16 + b1 / 16) % 16 * 16 + b1 % 16 * 4 / 4 = b1 := by omega
      rw [e0, e1]
  | b0 :: b1 :: b2 :: rest, h => by
      have hb0 : b0 < 256 := h b0 (by simp)
      have hb1 : b1 < 256 := h b1 (by simp)
      have hb2 : b2 < 256 := h b2 (by simp)
      have ih := b64_roundtrip rest (fun b hb => h b (by simp [hb]))
      cases rest with
      | nil =>
          simp only [b64EncodeList, b64DecodeList,
            b64Val_b64Char (show b0 / 4 < 64 by omega),
            b64Val_b64Char (show b0 % 4 * 16 + b1 / 16 < 64 by omega)]
          simp only [Option.bind_eq_bind, Option.some_bind]
          rw [if_neg (b64Char_ne_eq (show b1 % 16 * 4 + b2 / 64 < 64 by omega))]
          rw [b64Val_b64Char (show b1 % 16 * 4 + b2 / 64 < 64 by omega)]
          simp only [Option.some_bind]
          rw [if_neg (b64Char_ne_eq (show b2 % 64 < 64 by omega))]
          rw [b64Val_b64Char (show b2 % 64 < 64 by omega)]
          simp only [Option.some_bind, b64DecodeList, Option.bind_eq_bind, pure]
          have e0 : b0 / 4 * 4 + (b0 % 4 * 16 + b1 / 16) / 16 = b0 := by omega
          have e1 : (b0 % 4 * 16 + b1 / 16) % 16 * 16 + (b1 % 16 * 4 + b2 / 64) / 4 = b1 := by
            omega
          have e2 : (b1 % 16 * 4 + b2 / 64) % 4 * 64 + b2 % 64 = b2 := by omega
          rw [e0, e1, e2]
      | cons r0 rtl =>
          simp only [b64EncodeList] at ih ⊢
          simp only [b64DecodeList,
            b64Val_b64Char (show b0 / 4 < 64 by omega),
            b64Val_b64Char (show b0 % 4 * 16 + b1 / 16 < 64 by omega)]
          simp only [Option.bind_eq_bind, Option.some_bind]
          rw [if_neg (b64Char_ne_eq (show b1 % 16 * 4 + b2 / 64 < 64 by omega))]
          rw [b64Val_b64Char (show b1 % 16 * 4 + b2 / 64 < 64 by omega)]
          simp only [Option.some_bind]
          rw [if_neg (b64Char_ne_eq (show b2 % 64 < 64 by omega))]
          rw [b64Val_b64Char (show b2 % 64 < 64 by omega)]
          simp only [Option.some_bind]
          rw [ih]
          simp only [Option.some_bind, pure]
          have e0 : b0 / 4 * 4 + (b0 % 4 * 16 + b1 / 16) / 16 = b0 := by omega
          have e1 : (b0 % 4 * 16 + b1 / 16) % 16 * 16 + (b1 % 16 * 4 + b2 / 64) / 4 = b1 := by
            omega
          have e2 : (b1 % 16 * 4 + b2 / 64) % 4 * 64 + b2 % 64 = b2 := by omega
          rw [e0, e1, e2]

theorem b64Decode_b64Encode {bs : List Nat} (h : ∀ b ∈ bs, b < 256) :
    b64Decode (b64Encode bs) = some bs := by
  simpa [b64Decode, b64Encode] using b64_roundtrip bs h

/- ----------------------------------------------------------------- -/
/- Job records and keyed stores.                                     -/
/- ----------------------------------------------------------------- -/

/-- Job record, embedding the fields shared by the Job class of
job_store.py and the SQLModel Job of main.py (created_at is a plain
Nat timestamp). -/
structure JobRec where
  id : String
  image_url : String
  motion_id : String
  style : String
  status : String
  video_url : Option String
  error : Option String
  created_at : Nat
deriving DecidableEq

/-- Keyed store of job records: the SQLite table of main.py and the
dict of job_store.py are both maps from id to record. -/
def StoreMap : Type := String → Option JobRec

/-- Write one record under a key, leaving the rest of the map intact. -/
def setRec (db : StoreMap) (k : String) (r : JobRec) : StoreMap :=
  fun k2 => if k2 = k then some r else db k2

/- ----------------------------------------------------------------- -/
/- job_store.py: class JobStore.                                     -/
/- ----------------------------------------------------------------- -/

/-- Field patch handed to JobStore.update as keyword arguments: each
field is either absent or carries a new value (keyword arguments never
repeat a key, so a per-field option is a faithful model). -/
structure Patch where
  id : Option String
  image_url : Option String
  motion_id : Option String
  style : Option String
  status : Option String
  video_url : Option (Option String)
  error : Option (Option String)
  created_at : Option Nat
deriving DecidableEq

/-- Empty patch (no keyword arguments). -/
def Patch.none0 : Patch := ⟨none, none, none, none, none, none, none, none⟩

/-- Apply a field patch to a record: the setattr loop of
JobStore.update writes exactly the named fields. -/
def applyPatch (j : JobRec) (p : Patch) : JobRec :=
  { id := p.id.getD j.id
    image_url := p.image_url.getD j.image_url
    motion_id := p.motion_id.getD j.motion_id
    style := p.style.getD j.style
    status := p.status.getD j.status
    video_url := p.video_url.getD j.video_url
    error := p.error.getD j.error
    created_at := p.created_at.getD j.created_at }

namespace JobStore

/-- JobStore.create: store the record under its id (the source assigns
unconditionally, overwriting any record already stored at that id). -/
def create (s : StoreMap) (job : JobRec) : StoreMap :=
  setRec s job.id job

/-- JobStore.get: read the record at an id. -/
def get (s : StoreMap) (k : String) : Option JobRec := s k

/-- JobStore.update: silently do nothing when the id is missing,
otherwise apply the field patch to the stored record. -/
def update (s : StoreMap) (k : String) (p : Patch) : StoreMap :=
  match s k with
  | none => s
  | some job => setRec s k (applyPatch job p)

end JobStore

/- ----------------------------------------------------------------- -/
/- runway_client.py: _wait_for_task.                                 -/
/- ----------------------------------------------------------------- -/

namespace Runway

/-- Shape of the output field of a task response after the
data.get chain of _wait_for_task resolved it: a list of URLs, a dict
with an optional uri entry, or anything that is neither. -/
inductive TaskOutput where
  | list (xs : List String)
  | obj (uri : Option String)
  | absent
deriving DecidableEq

/-- One response of the provider's task endpoint as _wait_for_task
reads it: HTTP status code, raw body text (used in the status-failed
message), the optional status string of the JSON body, the resolved
output field, and the Python repr of the JSON body (used in the
task-failed message). -/
structure TaskResponse where
  statusCode : Nat
  bodyText : String
  status : Option String
  output : TaskOutput
  dataRepr : String
deriving DecidableEq

/-- Result of the polling loop: a video URL, a raised RunwayError
message, or still polling when the scripted responses run out. -/
inductive WaitResult where
  | ok (url : String)
  | err (msg : String)
  | polling
deriving DecidableEq

/-- Success check of _wait_for_task: the literal comparisons
status == SUCCEEDED or status == succeeded. -/
def isSucceeded (s : String) : Bool :=
  s = "SUCCEEDED" || s = "succeeded"

/-- Failure check of _wait_for_task: membership in the literal tuple
FAILED, failed, CANCELED, cancelled. -/
def isFailTerminal (s : String) : Bool :=
  s = "FAILED" || s = "failed" || s = "CANCELED" || s = "cancelled"

/-- Extraction of the output URL on a succeeded response: a nonempty
list yields its first element, a dict with a truthy uri yields it,
anything else raises the no-video-URL RunwayError. -/
def extractOutput : TaskOutput → WaitResult
  | .list (x :: _) => .ok x
  | .obj (some u) => if u = "" then .err "no video URL in output" else .ok u
  | _ => .err "no video URL in output"

/-- The polling loop of _wait_for_task over a finite script of
responses.  Each iteration raises on an HTTP status at or above 300,
returns on a succeeded status, raises on a failed or cancelled status,
and otherwise sleeps and polls again. -/
def waitForTask : List TaskResponse → WaitResult
  | [] => .polling
  | r :: rest =>
      if 300 ≤ r.statusCode then
        .err ("status failed: " ++ toString r.statusCode ++ " " ++ r.bodyText)
      else
        match r.status with
        | some s =>
            if isSucceeded s then extractOutput r.output
            else if isFailTerminal s then .err ("task failed: " ++ r.dataRepr)
            else waitForTask rest
        | none => waitForTask rest

end Runway

/- ----------------------------------------------------------------- -/
/- main.py: _prepare_prompt_image.                                   -/
/- ----------------------------------------------------------------- -/

/-- Outcome of the HEAD probe when it does not raise: the final URL
after redirects (str of head.request.url) and the optional
content-length header value. -/
structure HttpHead where
  resolvedUrl : String
  contentLength : Option String
deriving DecidableEq

/-- Outcome of the GET fetch when the request itself does not raise:
HTTP status code, optional content-type header, body bytes, and the
message of the HTTPStatusError that raise_for_status would raise on a
non-2xx code. -/
structure HttpGet where
  statusCode : Nat
  contentType : Option String
  body : List Nat
  httpErrorMsg : String
deriving DecidableEq

/-- External responses consumed by _prepare_prompt_image: none for the
HEAD models a raised exception (caught and ignored); the GET either
raises with a message or yields a response. -/
structure PrepareEnv where
  headResult : Option HttpHead
  getResult : Except String HttpGet
deriving DecidableEq

/-- Decimal value of a digit string, as Python int() reads it. -/
def digitsToNat (cs : List Char) : Nat :=
  cs.foldl (fun acc c => acc * 10 + (c.toNat - 48)) 0

/-- Check of the content-length header in _prepare_prompt_image:
cl is truthy, cl.isdigit(), and int(cl) is positive (digits are
modelled as ASCII digits). -/
def usableLen : Option String → Bool
  | none => false
  | some s => !s.data.isEmpty && s.data.all Char.isDigit && 0 < digitsToNat s.data

/-- Success range of raise_for_status. -/
def is2xx (n : Nat) : Bool := 200 ≤ n && n < 300

/-- Inline size cap of _prepare_prompt_image: 10 MiB. -/
def inlineLimit : Nat := 10 * 1024 * 1024

/-- Inline data URI assembled by _prepare_prompt_image. -/
def dataUri (contentType payload : String) : String :=
  "data:" ++ contentType ++ ";base64," ++ payload

/-- Fallback path of _prepare_prompt_image: GET the bytes, raise for a
non-2xx status, reject bodies above the cap, otherwise inline them as
a base64 data URI with the response's content type (default
image/jpeg). -/
def prepareFallback (env : PrepareEnv) : Except String String :=
  match env.getResult with
  | .error e => .error e
  | .ok g =>
      if is2xx g.statusCode then
        if g.body.length > inlineLimit then
          .error "Image too large (>10MB) for inline data URI."
        else
          .ok (dataUri (g.contentType.getD "image/jpeg") (b64Encode g.body))
      else .error g.httpErrorMsg

/-- The normalizer _prepare_prompt_image: HEAD the URL and pass the
redirect-resolved URL through when a positive content length is
advertised; on a raised HEAD or an unusable length, fall back to
fetching and inlining the bytes. -/
def preparePromptImage (env : PrepareEnv) : Except String String :=
  match env.headResult with
  | some h =>
      if usableLen h.contentLength then .ok h.resolvedUrl
      else prepareFallback env
  | none => prepareFallback env

/- ----------------------------------------------------------------- -/
/- main.py: key helpers, submission, polling, background worker.     -/
/- ----------------------------------------------------------------- -/

/-- Storage key of _render_key for a given UTC date folder. -/
def renderKey (today jobId : String) : String :=
  "renders/" ++ today ++ "/" ++ jobId ++ ".mp4"

/-- Log key of _log_key: the prefix differs for success and failure. -/
def logKey (today jobId status : String) : String :=
  (if status = "success" then "logs/jobs" else "logs/jobs_failed")
    ++ "/" ++ today ++ "/" ++ jobId ++ ".json"

/-- Request body of POST /jobs. -/
structure CreateJobRequest where
  image_url : String
  motion_id : String
  style : Option String
deriving DecidableEq

/-- Record built by create_job: status queued, no video URL, no error;
an empty or missing style falls back to photoreal (Python or). -/
def newJob (jobId : String) (req : CreateJobRequest) (now : Nat) : JobRec :=
  { id := jobId
    image_url := req.image_url
    motion_id := req.motion_id
    style := match req.style with
             | some s => if s = "" then "photoreal" else s
             | none => "photoreal"
    status := "queued"
    video_url := none
    error := none
    created_at := now }

/-- The submission handler create_job: insert the fresh record (the id
is a fresh uuid4 hex) and schedule the background worker. -/
def createJob (db : StoreMap) (jobId : String) (req : CreateJobRequest) (now : Nat) :
    StoreMap :=
  setRec db jobId (newJob jobId req now)

/-- Response body of GET /jobs/id. -/
structure GetJobResponse where
  id : String
  status : String
  video_url : Option String
  error : Option String
deriving DecidableEq

/-- The polling handler get_job: read the record and project it; none
models the 404 job-not-found response.  The handler performs no write. -/
def getJob (db : StoreMap) (jobId : String) : Option GetJobResponse :=
  match db jobId with
  | none => none
  | some j => some ⟨j.id, j.status, j.video_url, j.error⟩

/-- Service configuration: storage backend switch, public base URL,
and the UTC date folder of _today_folder. -/
structure Config where
  useR2 : Bool
  publicBaseUrl : String
  today : String
deriving DecidableEq

/-- One write to the storage backend: an R2 put at a key, or a local
file under local_renders. -/
inductive StorageOp where
  | r2Put (key : String)
  | localPut (fname : String)
deriving DecidableEq

/-- External outcomes consumed by one run of _process_job: the HTTP
responses of the normalizer, the result of runway generation, the URL
returned by upload_bytes_and_get_url, the outcome of the local file
write, the outcome of the best-effort log upload, and the uuid4 hex
used for a local file name. -/
structure Env where
  prepare : PrepareEnv
  generate : Except String (List Nat)
  r2Upload : Except String String
  localWrite : Except String Unit
  logWrite : Except String Unit
  freshName : String
deriving DecidableEq

/-- Outcome of the guarded pipeline body of _process_job (the try
block): the video URL or the raised message, whether the generation
call was reached, and the storage writes performed. -/
structure PipelineOut where
  result : Except String String
  generateCalled : Bool
  writes : List StorageOp
deriving DecidableEq

/-- The try block of _process_job: normalize the image, generate the
video bytes, then either upload to R2 under the render key (with a
best-effort success log) or write a local file named by a fresh uuid
and build the public URL. -/
def runPipeline (cfg : Config) (env : Env) (jobId : String) : PipelineOut :=
  match preparePromptImage env.prepare with
  | .error e => ⟨.error e, false, []⟩
  | .ok _prompt =>
      match env.generate with
      | .error e => ⟨.error e, true, []⟩
      | .ok _bytes =>
          if cfg.useR2 then
            match env.r2Upload with
            | .error e => ⟨.error e, true, []⟩
            | .ok url =>
                let logWrites :=
                  match env.logWrite with
                  | .ok _ => [StorageOp.r2Put (logKey cfg.today jobId "success")]
                  | .error _ => []
                ⟨.ok url, true, StorageOp.r2Put (renderKey cfg.today jobId) :: logWrites⟩
          else
            match env.localWrite with
            | .error e => ⟨.error e, true, []⟩
            | .ok _ =>
                ⟨.ok (cfg.publicBaseUrl ++ "/files/local/" ++ env.freshName ++ ".mp4"),
                 true, [StorageOp.localPut (env.freshName ++ ".mp4")]⟩

/-- Observable effect of one run of the background worker: the store
snapshots after each database write (starting from the initial store),
the final store, whether the generation call was reached, and the
storage writes. -/
structure RunResult where
  snapshots : List StoreMap
  final : StoreMap
  generateCalled : Bool
  writes : List StorageOp

/-- The background worker _process_job: return silently when the job
is missing, otherwise mark it processing, run the pipeline, and persist
either done with the video URL or error with the raised message
verbatim (with a best-effort failure log upload in R2 mode). -/
def processJobRun (cfg : Config) (env : Env) (db : StoreMap) (jobId : String) :
    RunResult :=
  match db jobId with
  | none => ⟨[db], db, false, []⟩
  | some job =>
      let db1 := setRec db jobId { job with status := "processing" }
      let p := runPipeline cfg env jobId
      match p.result with
      | .ok url =>
          let db2 :=
            match db1 jobId with
            | none => db1
            | some j =>
                setRec db1 jobId
                  { j with status := "done", video_url := some url, error := none }
          ⟨[db, db1, db2], db2, p.generateCalled, p.writes⟩
      | .error e =>
          let db2 :=
            match db1 jobId with
            | none => db1
            | some j =>
                setRec db1 jobId
                  { j with status := "error", error := some e, video_url := none }
          let errLog :=
            if cfg.useR2 then
              match env.logWrite with
              | .ok _ => [StorageOp.r2Put (logKey cfg.today jobId "error")]
              | .error _ => []
            else []
          ⟨[db, db1, db2], db2, p.generateCalled, p.writes ++ errLog⟩

/- ----------------------------------------------------------------- -/
/- Operations interleaving: polls, submissions and worker runs.      -/
/- ----------------------------------------------------------------- -/

/-- One externally triggered operation on the shared store. -/
inductive Op where
  | poll (jobId : String)
  | submit (jobId : String) (req : CreateJobRequest) (now : Nat)
  | run (jobId : String) (cfg : Config) (env : Env)

/-- Effect of one operation on the store: polling reads and writes
nothing, submission inserts a fresh record, a worker run drives one
job's pipeline. -/
def applyOp (db : StoreMap) : Op → StoreMap
  | .poll _ => db
  | .submit i req now => createJob db i req now
  | .run i cfg env => (processJobRun cfg env db i).final

/-- Effect of a sequence of operations. -/
def applyOps (db : StoreMap) (ops : List Op) : StoreMap :=
  ops.foldl applyOp db

/-- An operation that does not target the given job id: any poll, or a
submission or worker run of a different id (each job's run is scheduled
exactly once, at submission). -/
def opAvoids (jobId : String) : Op → Prop
  | .poll _ => True
  | .submit i _ _ => i ≠ jobId
  | .run i _ _ => i ≠ jobId

/-- Statuses of one job across the store snapshots of a worker run. -/
def statusTrace (r : RunResult) (jobId : String) : List (Option String) :=
  r.snapshots.map (fun s => (s jobId).map JobRec.status)

/-- Terminal-state invariant of a job record: nothing set while
non-terminal, the video URL set and the error clear when done, the
error set and the video URL clear when in error. -/
def statusInv (j : JobRec) : Prop :=
  (j.status = "queued" ∨ j.status = "processing" → j.video_url = none ∧ j.error = none) ∧
  (j.status = "done" → j.error = none ∧ j.video_url ≠ none) ∧
  (j.status = "error" → j.video_url = none ∧ j.error ≠ none)

/- ----------------------------------------------------------------- -/
/- Helper lemmas.                                                    -/
/- ----------------------------------------------------------------- -/

theorem setRec_self (db : StoreMap) (k : String) (r : JobRec) :
    setRec db k r k = some r := by
  simp [setRec]

theorem setRec_other (db : StoreMap) (k : String) (r : JobRec) (k2 : String)
    (h : k2 ≠ k) : setRec db k r k2 = db k2 := by
  simp [setRec, h]

theorem createJob_other (db : StoreMap) (i : String) (req : CreateJobRequest)
    (now : Nat) (j : String) (h : i ≠ j) : createJob db i req now j = db j := by
  have hji : j ≠ i := fun hc => h hc.symm
  simp [createJob, setRec, hji]

theorem processJobRun_final_other (cfg : Config) (env : Env) (db : StoreMap)
    (i j : String) (h : i ≠ j) : (processJobRun cfg env db i).final j = db j := by
  have hji : j ≠ i := fun hc => h hc.symm
  unfold processJobRun
  cases hdb : db i with
  | none => rfl
  | some job =>
      cases hres : (runPipeline cfg env i).result with
      | ok url =>
          simp only []
          cases hdb1 : setRec db i { job with status := "processing" } i with
          | none => simp [hres, hdb1, setRec, hji]
          | some j2 => simp [hres, hdb1, setRec, hji]
      | error e =>
          simp only []
          cases hdb1 : setRec db i { job with status := "processing" } i with
          | none => simp [hres, hdb1, setRec, hji]
          | some j2 => simp [hres, hdb1, setRec, hji]

theorem applyOp_avoids (db : StoreMap) (op : Op) (j : String)
    (h : opAvoids j op) : applyOp db op j = db j := by
  cases op with
  | poll _ => rfl
  | submit i req now => exact createJob_other db i req now j h
  | run i cfg env => exact processJobRun_final_other cfg env db i j h

theorem applyOps_avoids (ops : List Op) (db : StoreMap) (j : String)
    (h : ∀ op ∈ ops, opAvoids j op) : applyOps db ops j = db j := by
  induction ops generalizing db with
  | nil => rfl
  | cons op rest ih =>
      have h1 : opAvoids j op := h op (by simp)
      have h2 : ∀ op2 ∈ rest, opAvoids j op2 := fun op2 hm => h op2 (by simp [hm])
      calc applyOps db (op :: rest) j
          = applyOps (applyOp db op) rest j := rfl
        _ = applyOp db op j := ih (applyOp db op) h2
        _ = db j := applyOp_avoids db op j h1

/- ----------------------------------------------------------------- -/
/- Claim C4: JobStore.create on a duplicate id.                      -/
/- ----------------------------------------------------------------- -/

/-- Record already stored under id a in the C4 scenario. -/
def c4JobA : JobRec :=
  ⟨"a", "http://x/old.jpg", "wag", "photoreal", "done", some "http://v/old.mp4", none, 1⟩

/-- New record submitted with the same id a in the C4 scenario. -/
def c4JobB : JobRec :=
  ⟨"a", "http://x/new.jpg", "spin", "cartoon", "queued", none, none, 2⟩

/-- Store already holding c4JobA under id a. -/
def c4Store : StoreMap := fun k => if k = "a" then some c4JobA else none

/-- Claim C4 counterexample: calling JobStore.create with an id that
already exists does not fail with DuplicateId and does not leave the
existing record unchanged — it silently overwrites the stored record
with the new one. -/
theorem claim_C4_cex :
    JobStore.create c4Store c4JobB "a" = some c4JobB ∧
    c4JobB ≠ c4JobA ∧ c4Store "a" = some c4JobA := by
  refine ⟨?_, by decide, by simp [c4Store]⟩
  simp [JobStore.create, c4JobB, setRec]

/-- Claim C4 (amended): JobStore.create stores the record under its id
unconditionally — on a duplicate id it overwrites the existing record
instead of failing with DuplicateId — and leaves every other id
untouched. -/
theorem claim_C4 (s : StoreMap) (job : JobRec) :
    JobStore.create s job job.id = some job ∧
    ∀ k, k ≠ job.id → JobStore.create s job k = s k := by
  exact ⟨setRec_self s job.id job, fun k hk => setRec_other s job.id job k hk⟩

/-- Claim C4 witness: the amended theorem applied to the concrete C4
scenario. -/
theorem claim_C4_witness :
    JobStore.create c4Store c4JobB "a" = some c4JobB ∧
    JobStore.create c4Store c4JobB "b" = c4Store "b" := by
  exact ⟨(claim_C4 c4Store c4JobB).1, (claim_C4 c4Store c4JobB).2 "b" (by decide)⟩

/- ----------------------------------------------------------------- -/
/- Claim C5: JobStore.update on a missing or present id.             -/
/- ----------------------------------------------------------------- -/

/-- Claim C5: updating a missing id is a silent no-op (nothing raised,
the whole store unchanged); updating a present id applies exactly the
given field patch to that record. -/
theorem claim_C5 (s : StoreMap) (k : String) (p : Patch) :
    (s k = none → ∀ k2, JobStore.update s k p k2 = s k2) ∧
    (∀ job, s k = some job →
      JobStore.update s k p k = some (applyPatch job p) ∧
      ∀ k2, k2 ≠ k → JobStore.update s k p k2 = s k2) := by
  constructor
  · intro h k2
    simp [JobStore.update, h]
  · intro job h
    refine ⟨?_, fun k2 hk => ?_⟩
    · simp [JobStore.update, h, setRec_self]
    · simp [JobStore.update, h, setRec_other s k (applyPatch job p) k2 hk]

/-- Patch setting only status and error, as the worker's failure path
does through the store interface. -/
def c5Patch : Patch :=
  ⟨none, none, none, none, some "error", none, some (some "boom"), none⟩

/-- Record stored under id a in the C5 and C10 scenarios. -/
def c5Job : JobRec :=
  ⟨"a", "http://x/cat.jpg", "wag", "photoreal", "processing", none, none, 7⟩

/-- Store holding c5Job under id a. -/
def c5Store : StoreMap := fun k => if k = "a" then some c5Job else none

/-- Claim C5 witness: the theorem applied to the concrete store, both
at the missing id m and at the present id a. -/
theorem claim_C5_witness :
    JobStore.update c5Store "m" c5Patch "a" = c5Store "a" ∧
    JobStore.update c5Store "a" c5Patch "a" = some (applyPatch c5Job c5Patch) := by
  exact ⟨(claim_C5 c5Store "m" c5Patch).1 (by simp [c5Store]) "a",
         ((claim_C5 c5Store "a" c5Patch).2 c5Job (by simp [c5Store])).1⟩

/- ----------------------------------------------------------------- -/
/- Claim C10: frame property of JobStore.update.                     -/
/- ----------------------------------------------------------------- -/

/-- Claim C10: updating a present id changes only the fields named in
the patch of that record — every other record, and every unnamed field
of the patched record, is identical before and after. -/
theorem claim_C10 (s : StoreMap) (k : String) (p : Patch) (job : JobRec)
    (h : s k = some job) :
    (∀ k2, k2 ≠ k → JobStore.update s k p k2 = s k2) ∧
    JobStore.update s k p k = some (applyPatch job p) ∧
    (p.id = none → (applyPatch job p).id = job.id) ∧
    (p.image_url = none → (applyPatch job p).image_url = job.image_url) ∧
    (p.motion_id = none → (applyPatch job p).motion_id = job.motion_id) ∧
    (p.style = none → (applyPatch job p).style = job.style) ∧
    (p.status = none → (applyPatch job p).status = job.status) ∧
    (p.video_url = none → (applyPatch job p).video_url = job.video_url) ∧
    (p.error = none → (applyPatch job p).error = job.error) ∧
    (p.created_at = none → (applyPatch job p).created_at = job.created_at) := by
  refine ⟨fun k2 hk => ?_, ?_, ?_, ?_, ?_, ?_, ?_, ?_, ?_, ?_⟩
  · simp [JobStore.update, h, setRec_other s k (applyPatch job p) k2 hk]
  · simp [JobStore.update, h, setRec_self]
  all_goals intro hp
  all_goals simp [applyPatch, hp]

/-- Claim C10 witness: the frame theorem applied to the concrete C5
store; the patch names only status and error, so image_url and
created_at stay put, as does the record at the other id b. -/
theorem claim_C10_witness :
    JobStore.update c5Store "a" c5Patch "b" = c5Store "b" ∧
    JobStore.update c5Store "a" c5Patch "a" = some (applyPatch c5Job c5Patch) ∧
    (applyPatch c5Job c5Patch).image_url = c5Job.image_url ∧
    (applyPatch c5Job c5Patch).created_at = c5Job.created_at := by
  have h := claim_C10 c5Store "a" c5Patch c5Job (by simp [c5Store])
  exact ⟨h.1 "b" (by decide), h.2.1, h.2.2.2.1 rfl, h.2.2.2.2.2.2.2.2.2 rfl⟩

/- ----------------------------------------------------------------- -/
/- Claim C7: the poll-until-terminal loop of _wait_for_task.         -/
/- ----------------------------------------------------------------- -/

/-- Claim C7 counterexample: the loop does not fail on every non-2xx
poll response (a 1xx code keeps polling, since the code only checks
for 300 and above), does not fail on a CANCELLED status (the code's
literal tuple omits that spelling), and does not return a URL on every
succeeded response (an output of neither accepted shape raises the
no-video-URL error). -/
theorem claim_C7_cex :
    Runway.waitForTask [⟨100, "cont", some "RUNNING", .absent, "d1"⟩] =
      Runway.WaitResult.polling ∧
    is2xx 100 = false ∧
    Runway.waitForTask [⟨200, "", some "CANCELLED", .absent, "d2"⟩] =
      Runway.WaitResult.polling ∧
    Runway.waitForTask [⟨200, "", some "succeeded", .absent, "d3"⟩] =
      Runway.WaitResult.err "no video URL in output" := by
  refine ⟨rfl, rfl, rfl, rfl⟩

/-- Claim C7 (amended): the loop fails with the status-failed message
on the first response whose HTTP status is at or above 300 (1xx codes
do not trip this check); on the first response whose status string is
the literal SUCCEEDED or succeeded it returns the first element of a
nonempty list-shaped output, or the non-empty uri of an object-shaped
output, and fails with the no-video-URL error when the output has
neither form; it fails with the task-failed message on the first
response whose status string is one of the literals FAILED, failed,
CANCELED, cancelled; and it keeps polling on every other response. -/
theorem claim_C7 (r : Runway.TaskResponse) (rest : List Runway.TaskResponse) :
    (300 ≤ r.statusCode →
      Runway.waitForTask (r :: rest) =
        Runway.WaitResult.err
          ("status failed: " ++ toString r.statusCode ++ " " ++ r.bodyText)) ∧
    (r.statusCode < 300 → ∀ s, r.status = some s → Runway.isSucceeded s = true →
      Runway.waitForTask (r :: rest) = Runway.extractOutput r.output ∧
      (∀ x xs, r.output = .list (x :: xs) →
        Runway.extractOutput r.output = Runway.WaitResult.ok x) ∧
      (∀ u, r.output = .obj (some u) → u ≠ "" →
        Runway.extractOutput r.output = Runway.WaitResult.ok u) ∧
      ((r.output = .absent ∨ r.output = .list [] ∨ r.output = .obj none ∨
          r.output = .obj (some "")) →
        Runway.extractOutput r.output =
          Runway.WaitResult.err "no video URL in output")) ∧
    (r.statusCode < 300 → ∀ s, r.status = some s → Runway.isSucceeded s = false →
      Runway.isFailTerminal s = true →
      Runway.waitForTask (r :: rest) =
        Runway.WaitResult.err ("task failed: " ++ r.dataRepr)) ∧
    (r.statusCode < 300 → r.status = none →
      Runway.waitForTask (r :: rest) = Runway.waitForTask rest) ∧
    (r.statusCode < 300 → ∀ s, r.status = some s → Runway.isSucceeded s = false →
      Runway.isFailTerminal s = false →
      Runway.waitForTask (r :: rest) = Runway.waitForTask rest) := by
  refine ⟨?_, ?_, ?_, ?_, ?_⟩
  · intro hge
    simp [Runway.waitForTask, hge]
  · intro hlt s hs hsucc
    have hnge : ¬ 300 ≤ r.statusCode := by omega
    refine ⟨by simp [Runway.waitForTask, hnge, hs, hsucc], ?_, ?_, ?_⟩
    · intro x xs hout
      simp [Runway.extractOutput, hout]
    · intro u hout hu
      simp [Runway.extractOutput, hout, hu]
    · intro hout
      rcases hout with h1 | h1 | h1 | h1 <;> simp [Runway.extractOutput, h1]
  · intro hlt s hs hsucc hfail
    have hnge : ¬ 300 ≤ r.statusCode := by omega
    simp [Runway.waitForTask, hnge, hs, hsucc, hfail]
  · intro hlt hs
    have hnge : ¬ 300 ≤ r.statusCode := by omega
    simp [Runway.waitForTask, hnge, hs]
  · intro hlt s hs hsucc hfail
    have hnge : ¬ 300 ≤ r.statusCode := by omega
    simp [Runway.waitForTask, hnge, hs, hsucc, hfail]

/-- Claim C7 witness: the amended theorem applied to a concrete script
whose first response succeeds with a two-element output list, and to a
concrete failed response. -/
theorem claim_C7_witness :
    Runway.waitForTask [⟨200, "", some "succeeded", .list ["http://v/1.mp4", "x"], "d"⟩] =
      Runway.WaitResult.ok "http://v/1.mp4" ∧
    Runway.waitForTask [⟨200, "", some "FAILED", .absent, "repr"⟩] =
      Runway.WaitResult.err ("task failed: " ++ "repr") := by
  constructor
  · have h := (claim_C7 ⟨200, "", some "succeeded", .list ["http://v/1.mp4", "x"], "d"⟩ []).2.1
      (by decide) "succeeded" rfl (by decide)
    exact h.1.trans (h.2.1 "http://v/1.mp4" ["x"] rfl)
  · exact (claim_C7 ⟨200, "", some "FAILED", .absent, "repr"⟩ []).2.2.1
      (by decide) "FAILED" rfl (by decide) (by decide)

/- ----------------------------------------------------------------- -/
/- Claim C6: _prepare_prompt_image.                                  -/
/- ----------------------------------------------------------------- -/

/-- The metadata probe gave no usable length: either the HEAD raised,
or its content-length header failed the positivity check. -/
def probeNoLen (env : PrepareEnv) : Prop :=
  match env.headResult with
  | none => True
  | some h => usableLen h.contentLength = false

theorem preparePromptImage_fallback (env : PrepareEnv) (h : probeNoLen env) :
    preparePromptImage env = prepareFallback env := by
  unfold preparePromptImage
  unfold probeNoLen at h
  cases hh : env.headResult with
  | none => rfl
  | some hd => rw [hh] at h; simp [h]

theorem generateCalled_of_prepare_error (cfg : Config) (env : Env) (db : StoreMap)
    (jobId : String) (e : String) (h : preparePromptImage env.prepare = .error e) :
    (processJobRun cfg env db jobId).generateCalled = false := by
  have hp : runPipeline cfg env jobId = ⟨.error e, false, []⟩ := by
    simp [runPipeline, h]
  unfold processJobRun
  cases hdb : db jobId with
  | none => rfl
  | some job => simp [hp]

/-- Claim C6: when the HEAD probe advertises a positive content length
the normalizer passes the redirect-resolved URL through unchanged; when
the probe raised or gave no usable length it fetches the body and
returns a data URI carrying the response's MIME type whose base64
payload decodes to exactly the fetched bytes; and when the fetched body
exceeds 10 MiB it fails with the image-too-large error (the spec's
PayloadTooLarge) and the generation call of the worker is never
reached. -/
theorem claim_C6 (env : PrepareEnv) :
    (∀ h, env.headResult = some h → usableLen h.contentLength = true →
      preparePromptImage env = .ok h.resolvedUrl) ∧
    (probeNoLen env → ∀ g, env.getResult = .ok g → is2xx g.statusCode = true →
      g.body.length ≤ inlineLimit → (∀ b ∈ g.body, b < 256) →
      preparePromptImage env =
        .ok (dataUri (g.contentType.getD "image/jpeg") (b64Encode g.body)) ∧
      b64Decode (b64Encode g.body) = some g.body) ∧
    (probeNoLen env → ∀ g, env.getResult = .ok g → is2xx g.statusCode = true →
      g.body.length > inlineLimit →
      preparePromptImage env = .error "Image too large (>10MB) for inline data URI." ∧
      ∀ (cfg : Config) (envG : Env) (db : StoreMap) (jobId : String),
        envG.prepare = env → (processJobRun cfg envG db jobId).generateCalled = false) := by
  refine ⟨?_, ?_, ?_⟩
  · intro h hh hlen
    simp [preparePromptImage, hh, hlen]
  · intro hno g hg h2xx hsize h256
    have hnot : ¬ g.body.length > inlineLimit := by omega
    refine ⟨?_, b64Decode_b64Encode h256⟩
    rw [preparePromptImage_fallback env hno]
    simp [prepareFallback, hg, h2xx, hnot]
  · intro hno g hg h2xx hsize
    have hfail : preparePromptImage env = .error "Image too large (>10MB) for inline data URI." := by
      rw [preparePromptImage_fallback env hno]
      simp [prepareFallback, hg, h2xx, hsize]
    refine ⟨hfail, ?_⟩
    intro cfg envG db jobId hpre
    exact generateCalled_of_prepare_error cfg envG db jobId _ (by rw [hpre]; exact hfail)

/-- Concrete C6 scenario: a HEAD that resolves to the final URL with a
positive content length. -/
def c6EnvHead : PrepareEnv :=
  ⟨some ⟨"https://cdn.x/cat-final.jpg", some "5"⟩, .error "unused"⟩

/-- Concrete C6 scenario: a raised HEAD followed by a small 2xx GET. -/
def c6EnvInline : PrepareEnv :=
  ⟨none, .ok ⟨200, some "image/png", [1, 2, 3], "m"⟩⟩

/-- Claim C6 witness: the theorem applied to the concrete pass-through
and inline scenarios; the inline payload of bytes 1, 2, 3 encodes to
AQID and decodes back to exactly those bytes. -/
theorem claim_C6_witness :
    preparePromptImage c6EnvHead = .ok "https://cdn.x/cat-final.jpg" ∧
    preparePromptImage c6EnvInline =
      .ok (dataUri "image/png" (b64Encode [1, 2, 3])) ∧
    b64Decode (b64Encode [1, 2, 3]) = some [1, 2, 3] ∧
    b64Encode [1, 2, 3] = "AQID" := by
  refine ⟨(claim_C6 c6EnvHead).1 ⟨"https://cdn.x/cat-final.jpg", some "5"⟩ rfl (by decide),
          ?_, ?_, by decide⟩
  · exact (((claim_C6 c6EnvInline).2.1 (by trivial) ⟨200, some "image/png", [1, 2, 3], "m"⟩
      rfl (by decide) (by decide) (by decide))).1
  · exact (((claim_C6 c6EnvInline).2.1 (by trivial) ⟨200, some "image/png", [1, 2, 3], "m"⟩
      rfl (by decide) (by decide) (by decide))).2

/- ----------------------------------------------------------------- -/
/- Claim C3: failure capture at the pipeline boundary.               -/
/- ----------------------------------------------------------------- -/

theorem runPipeline_logWrite (cfg : Config) (env : Env) (jobId : String)
    (l : Except String Unit) :
    (runPipeline cfg { env with logWrite := l } jobId).result =
      (runPipeline cfg env jobId).result ∧
    (runPipeline cfg { env with logWrite := l } jobId).generateCalled =
      (runPipeline cfg env jobId).generateCalled := by
  obtain ⟨pre, gen, up, lw, lg, fn⟩ := env
  simp only [runPipeline]
  cases hp : preparePromptImage pre with
  | error e => simp
  | ok pi =>
      cases gen with
      | error e => simp
      | ok bs =>
          cases hr2 : cfg.useR2 with
          | false => cases lw with
              | error e => simp
              | ok u => simp
          | true => cases up with
              | error e => simp
              | ok url => simp

/-- Claim C3: every failure of the normalize, generate or publish step
is caught at the pipeline boundary and persisted as status error with
the failure's message verbatim and a cleared video URL (the worker
itself is a total function, so it never raises outward), and changing
the outcome of the best-effort log write changes neither the store
snapshots nor the final store. -/
theorem claim_C3 (cfg : Config) (env : Env) (db : StoreMap) (jobId : String)
    (job : JobRec) (e : String) (hdb : db jobId = some job)
    (hres : (runPipeline cfg env jobId).result = .error e) :
    (processJobRun cfg env db jobId).final jobId =
      some { job with status := "error", error := some e, video_url := none } ∧
    ∀ l : Except String Unit,
      (processJobRun cfg { env with logWrite := l } db jobId).final =
        (processJobRun cfg env db jobId).final ∧
      (processJobRun cfg { env with logWrite := l } db jobId).snapshots =
        (processJobRun cfg env db jobId).snapshots := by
  constructor
  · unfold processJobRun
    simp only [hdb, hres]
    simp [setRec]
  · intro l
    have hres2 : (runPipeline cfg { env with logWrite := l } jobId).result = .error e :=
      (runPipeline_logWrite cfg env jobId l).1.trans hres
    unfold processJobRun
    simp only [hdb, hres, hres2]
    exact ⟨trivial, trivial⟩

/-- Concrete C3 scenario: store with one queued job j1. -/
def c3Req : CreateJobRequest := ⟨"https://x/cat.jpg", "wag", some "photoreal"⟩

/-- Store holding the fresh j1 record of the C3 scenario. -/
def c3Db : StoreMap := createJob (fun _ => none) "j1" c3Req 0

/-- Local-mode configuration used in the concrete scenarios. -/
def cfgLocal : Config := ⟨false, "http://localhost:8000", "2025-10-12"⟩

/-- Environment whose generation step raises with message boom. -/
def c3Env : Env :=
  ⟨⟨some ⟨"https://x/cat.jpg", some "5"⟩, .error "unused"⟩,
   .error "boom", .error "unused", .ok (), .ok (), "f"⟩

/-- Claim C3 witness: the theorem applied to the concrete scenario in
which generation raises boom; the record ends in error with the
message verbatim, for either outcome of the log write. -/
theorem claim_C3_witness :
    (processJobRun cfgLocal c3Env c3Db "j1").final "j1" =
      some { newJob "j1" c3Req 0 with
             status := "error", error := some "boom", video_url := none } ∧
    (processJobRun cfgLocal { c3Env with logWrite := .error "disk full" } c3Db "j1").final =
      (processJobRun cfgLocal c3Env c3Db "j1").final := by
  have h := claim_C3 cfgLocal c3Env c3Db "j1" (newJob "j1" c3Req 0) "boom"
    (by simp [c3Db, createJob, setRec]) (by decide)
  exact ⟨h.1, (h.2 (.error "disk full")).1⟩

/- ----------------------------------------------------------------- -/
/- Claim C2: terminal-state invariant of reachable records.          -/
/- ----------------------------------------------------------------- -/

/-- Claim C2 counterexample: the non-empty parts of the claim fail.
A generation failure whose exception message is empty (the code stores
str(e) verbatim with no guard) ends the job in status error with the
error field set to the empty string; an R2 upload that returns an
empty URL (the code stores whatever upload_bytes_and_get_url returns)
ends the job done with video_url set to the empty string. -/
theorem claim_C2_cex :
    (processJobRun cfgLocal
        ⟨⟨some ⟨"https://x/cat.jpg", some "5"⟩, .error "u"⟩,
         .error "", .error "u", .ok (), .ok (), "f"⟩
        c3Db "j1").final "j1" =
      some { newJob "j1" c3Req 0 with
             status := "error", error := some "", video_url := none } ∧
    (processJobRun ⟨true, "http://localhost:8000", "2025-10-12"⟩
        ⟨⟨some ⟨"https://x/cat.jpg", some "5"⟩, .error "u"⟩,
         .ok [1], .ok "", .error "u", .ok (), "f"⟩
        c3Db "j1").final "j1" =
      some { newJob "j1" c3Req 0 with
             status := "done", video_url := some "", error := none } := by
  constructor
  · rfl
  · rfl

/-- Claim C2 (amended): for every record reachable by the worker from
a freshly created job, every store snapshot of the run satisfies the
terminal-state invariant: while queued or processing both video_url
and error are null; when done, video_url is set (to whatever URL the
publish step returned, with no non-emptiness guarantee) and error is
null; when in error, error is set (to the failure's message verbatim,
which may be empty) and video_url is null — so exactly one of the two
is set once the job is terminal. -/
theorem claim_C2 (cfg : Config) (env : Env) (db : StoreMap) (jobId : String)
    (job : JobRec) (hdb : db jobId = some job) (hq : job.status = "queued")
    (hv : job.video_url = none) (he : job.error = none) :
    ∀ s ∈ (processJobRun cfg env db jobId).snapshots,
      ∀ r, s jobId = some r → statusInv r := by
  intro s hs r hr
  unfold processJobRun at hs
  cases hres : (runPipeline cfg env jobId).result with
  | ok url =>
      simp only [hdb, hres, setRec_self, List.mem_cons, List.not_mem_nil, or_false] at hs
      rcases hs with h1 | h1 | h1
      · rw [h1, hdb] at hr
        cases hr
        exact ⟨fun _ => ⟨hv, he⟩, fun hd => by simp [hq] at hd, fun hd => by simp [hq] at hd⟩
      · rw [h1, setRec_self] at hr
        cases hr
        exact ⟨fun _ => ⟨hv, he⟩, fun hd => by simp at hd, fun hd => by simp at hd⟩
      · rw [h1, setRec_self] at hr
        cases hr
        exact ⟨fun hd => by simp at hd, fun _ => ⟨rfl, by simp⟩, fun hd => by simp at hd⟩
  | error e =>
      simp only [hdb, hres, setRec_self, List.mem_cons, List.not_mem_nil, or_false] at hs
      rcases hs with h1 | h1 | h1
      · rw [h1, hdb] at hr
        cases hr
        exact ⟨fun _ => ⟨hv, he⟩, fun hd => by simp [hq] at hd, fun hd => by simp [hq] at hd⟩
      · rw [h1, setRec_self] at hr
        cases hr
        exact ⟨fun _ => ⟨hv, he⟩, fun hd => by simp at hd, fun hd => by simp at hd⟩
      · rw [h1, setRec_self] at hr
        cases hr
        exact ⟨fun hd => by simp at hd, fun hd => by simp at hd, fun _ => ⟨rfl, by simp⟩⟩

/-- Claim C2 witness: the amended invariant applied to the concrete C3
scenario at the initial snapshot, whose record is the freshly created
queued job. -/
theorem claim_C2_witness : statusInv (newJob "j1" c3Req 0) := by
  exact claim_C2 cfgLocal c3Env c3Db "j1" (newJob "j1" c3Req 0) rfl rfl rfl rfl
    c3Db (List.mem_cons_self _ _) _ rfl

/- ----------------------------------------------------------------- -/
/- Claim C8: the date-partitioned render key.                        -/
/- ----------------------------------------------------------------- -/

theorem renderKey_inj (d1 d2 i1 i2 : String) (hlen : d1.length = d2.length)
    (h : renderKey d1 i1 = renderKey d2 i2) : d1 = d2 ∧ i1 = i2 := by
  unfold renderKey at h
  have hd : ("renders/".data ++ (d1.data ++ ("/".data ++ (i1.data ++ ".mp4".data)))) =
            ("renders/".data ++ (d2.data ++ ("/".data ++ (i2.data ++ ".mp4".data)))) := by
    have := congrArg String.data h
    simpa [String.data_append, List.append_assoc] using this
  have hd2 := List.append_cancel_left hd
  have hlen2 : d1.data.length = d2.data.length := hlen
  obtain ⟨hdd, htl⟩ := List.append_inj hd2 hlen2
  have htl2 := List.append_cancel_left htl
  have hii := List.append_cancel_right htl2
  constructor
  · cases d1; cases d2; exact congrArg String.mk hdd
  · cases i1; cases i2; exact congrArg String.mk hii

/-- Environment of a successful local-mode run whose fresh uuid hex is
u123. -/
def c8EnvU : Env :=
  ⟨⟨some ⟨"https://x/cat.jpg", some "5"⟩, .error "u"⟩,
   .ok [1], .error "u", .ok (), .ok (), "u123"⟩

/-- The same environment with fresh uuid hex v456. -/
def c8EnvV : Env :=
  ⟨⟨some ⟨"https://x/cat.jpg", some "5"⟩, .error "u"⟩,
   .ok [1], .error "u", .ok (), .ok (), "v456"⟩

/-- Claim C8 counterexample: in the local-filesystem backend the
artifact is stored under a fresh random uuid name, not under the
date-partitioned render key, and two runs of the same job on the same
day store under different names — so the storage key is neither of the
claimed shape nor a function of the job id and the UTC date alone. -/
theorem claim_C8_cex :
    (processJobRun cfgLocal c8EnvU c3Db "j1").writes =
      [StorageOp.localPut "u123.mp4"] ∧
    (processJobRun cfgLocal c8EnvV c3Db "j1").writes =
      [StorageOp.localPut "v456.mp4"] ∧
    "u123.mp4" ≠ renderKey "2025-10-12" "j1" ∧
    StorageOp.localPut "u123.mp4" ≠ StorageOp.localPut "v456.mp4" := by
  exact ⟨rfl, rfl, by decide, by decide⟩

/-- Claim C8 (amended): in the R2 object-store backend every
successfully generated job stores its bytes under the deterministic
date-partitioned key renders/UTC-date/jobId.mp4, and that key is
injective in the date and job id (for same-length date folders), so
distinct jobs never collide; in the local backend the artifact is
instead written under a fresh random uuid name unrelated to the job id
and date. -/
theorem claim_C8 (cfg : Config) (env : Env) (db : StoreMap) (jobId : String)
    (job : JobRec) (pi : String) (bs : List Nat) (url : String)
    (hr2 : cfg.useR2 = true) (hdb : db jobId = some job)
    (hpre : preparePromptImage env.prepare = .ok pi)
    (hgen : env.generate = .ok bs) (hup : env.r2Upload = .ok url) :
    (processJobRun cfg env db jobId).writes.head? =
      some (StorageOp.r2Put (renderKey cfg.today jobId)) ∧
    ∀ d1 d2 i1 i2 : String, d1.length = d2.length →
      renderKey d1 i1 = renderKey d2 i2 → d1 = d2 ∧ i1 = i2 := by
  constructor
  · have hp : (runPipeline cfg env jobId).writes =
        StorageOp.r2Put (renderKey cfg.today jobId) ::
          (match env.logWrite with
           | .ok _ => [StorageOp.r2Put (logKey cfg.today jobId "success")]
           | .error _ => []) ∧
      (runPipeline cfg env jobId).result = .ok url := by
      constructor <;> simp [runPipeline, hpre, hgen, hr2, hup]
    unfold processJobRun
    simp only [hdb, hp.2, hp.1]
    rfl
  · exact fun d1 d2 i1 i2 hl he => renderKey_inj d1 d2 i1 i2 hl he

/-- R2-mode configuration used in the concrete scenarios. -/
def cfgR2 : Config := ⟨true, "http://localhost:8000", "2025-10-12"⟩

/-- Environment of a successful R2-mode run. -/
def c8Env : Env :=
  ⟨⟨some ⟨"https://x/cat.jpg", some "5"⟩, .error "u"⟩,
   .ok [1, 2], .ok "https://storage.example/renders/2025-10-12/j1.mp4",
   .error "u", .ok (), "w"⟩

/-- Claim C8 witness: the amended theorem applied to the concrete
successful R2 run, and the key injectivity at concrete dates and ids. -/
theorem claim_C8_witness :
    (processJobRun cfgR2 c8Env c3Db "j1").writes.head? =
      some (StorageOp.r2Put (renderKey "2025-10-12" "j1")) ∧
    ("2025-10-12" = "2025-10-12" ∧ "j1" = "j1") := by
  have h := claim_C8 cfgR2 c8Env c3Db "j1" (newJob "j1" c3Req 0) "https://x/cat.jpg"
    [1, 2] "https://storage.example/renders/2025-10-12/j1.mp4" rfl rfl rfl rfl rfl
  exact ⟨h.1, h.2 "2025-10-12" "2025-10-12" "j1" "j1" rfl rfl⟩

/- ----------------------------------------------------------------- -/
/- Claim C9: idempotent polling of terminal jobs.                    -/
/- ----------------------------------------------------------------- -/

/-- Claim C9: a record in a terminal state is untouched by any number
of further operations that do not target its id (polls of any id,
submissions and worker runs of other ids — one worker run per id is
scheduled, at submission), so repeated polls return identical
responses; polling an id not in the store yields the not-found
signal. -/
theorem claim_C9 (db : StoreMap) (jobId : String) (job : JobRec)
    (hdb : db jobId = some job) (_hterm : job.status = "done" ∨ job.status = "error")
    (ops : List Op) (hav : ∀ op ∈ ops, opAvoids jobId op) :
    applyOps db ops jobId = db jobId ∧
    getJob (applyOps db ops) jobId = getJob db jobId ∧
    getJob (applyOps db ops) jobId = some ⟨job.id, job.status, job.video_url, job.error⟩ ∧
    ∀ (db2 : StoreMap) (j2 : String), db2 j2 = none → getJob db2 j2 = none := by
  have hpres := applyOps_avoids ops db jobId hav
  refine ⟨hpres, ?_, ?_, ?_⟩
  · simp [getJob, hpres]
  · simp [getJob, hpres, hdb]
  · intro db2 j2 h2
    simp [getJob, h2]

/-- Store holding one completed job j1. -/
def c9Db : StoreMap :=
  fun k => if k = "j1" then
    some ⟨"j1", "https://x/cat.jpg", "wag", "photoreal", "done",
          some "https://v.example/j1.mp4", none, 3⟩
  else none

/-- Operations after j1 completed: two polls of j1 and an unrelated
submission and worker run of k2. -/
def c9Ops : List Op :=
  [Op.poll "j1", Op.submit "k2" c3Req 5, Op.run "k2" cfgLocal c3Env, Op.poll "j1"]

/-- Claim C9 witness: the theorem applied to the concrete terminal
store and operation sequence. -/
theorem claim_C9_witness :
    applyOps c9Db c9Ops "j1" = c9Db "j1" ∧
    getJob (applyOps c9Db c9Ops) "j1" =
      some ⟨"j1", "done", some "https://v.example/j1.mp4", none⟩ := by
  have h := claim_C9 c9Db "j1"
    ⟨"j1", "https://x/cat.jpg", "wag", "photoreal", "done",
     some "https://v.example/j1.mp4", none, 3⟩ rfl (Or.inl rfl) c9Ops
    (by intro op hop
        rcases List.mem_cons.mp hop with h1 | hop
        · rw [h1]; trivial
        rcases List.mem_cons.mp hop with h1 | hop
        · rw [h1]; exact (by decide : ("k2" : String) ≠ "j1")
        rcases List.mem_cons.mp hop with h1 | hop
        · rw [h1]; exact (by decide : ("k2" : String) ≠ "j1")
        rcases List.mem_cons.mp hop with h1 | hop
        · rw [h1]; trivial
        · cases hop)
  exact ⟨h.1, h.2.2.1⟩

/- ----------------------------------------------------------------- -/
/- Claim C1: the job lifecycle path.                                 -/
/- ----------------------------------------------------------------- -/

/-- Claim C1: submission creates the record with status queued; one
worker run drives the statuses along exactly the path queued,
processing, then done or error; polling never writes the store; and
once the run ends in a terminal state, any further operations that do
not target the job's id (polls of any id, submissions and runs of
other ids — the runner is scheduled exactly once per id, at
submission) leave the record unchanged. -/
theorem claim_C1 (cfg : Config) (env : Env) (db : StoreMap) (jobId : String)
    (req : CreateJobRequest) (now : Nat) (_hfresh : db jobId = none) :
    (createJob db jobId req now jobId = some (newJob jobId req now) ∧
     (newJob jobId req now).status = "queued") ∧
    (statusTrace (processJobRun cfg env (createJob db jobId req now) jobId) jobId =
       [some "queued", some "processing", some "done"] ∨
     statusTrace (processJobRun cfg env (createJob db jobId req now) jobId) jobId =
       [some "queued", some "processing", some "error"]) ∧
    (((processJobRun cfg env (createJob db jobId req now) jobId).final jobId).map
        JobRec.status = some "done" ∨
     ((processJobRun cfg env (createJob db jobId req now) jobId).final jobId).map
        JobRec.status = some "error") ∧
    (∀ ops, (∀ op ∈ ops, opAvoids jobId op) →
      applyOps (processJobRun cfg env (createJob db jobId req now) jobId).final ops jobId =
        (processJobRun cfg env (createJob db jobId req now) jobId).final jobId) ∧
    (∀ (s : StoreMap) (i : String), applyOp s (Op.poll i) = s) := by
  have hq : createJob db jobId req now jobId = some (newJob jobId req now) :=
    setRec_self db jobId (newJob jobId req now)
  refine ⟨⟨hq, rfl⟩, ?_, ?_,
    fun ops hav => applyOps_avoids ops _ jobId hav, fun s i => rfl⟩
  · cases hres : (runPipeline cfg env jobId).result with
    | ok url =>
        left
        unfold processJobRun statusTrace
        simp only [hq, hres, setRec_self, List.map_cons, List.map_nil, Option.map_some]
        rfl
    | error e =>
        right
        unfold processJobRun statusTrace
        simp only [hq, hres, setRec_self, List.map_cons, List.map_nil, Option.map_some]
        rfl
  · cases hres : (runPipeline cfg env jobId).result with
    | ok url =>
        left
        unfold processJobRun
        simp only [hq, hres, setRec_self]
        rfl
    | error e =>
        right
        unfold processJobRun
        simp only [hq, hres, setRec_self]
        rfl

/-- Claim C1 witness: the lifecycle theorem applied to the concrete
scenario of a fresh submission whose generation step raises boom,
followed by a poll. -/
theorem claim_C1_witness :
    createJob (fun _ => none) "j1" c3Req 0 "j1" = some (newJob "j1" c3Req 0) ∧
    (statusTrace (processJobRun cfgLocal c3Env c3Db "j1") "j1" =
       [some "queued", some "processing", some "done"] ∨
     statusTrace (processJobRun cfgLocal c3Env c3Db "j1") "j1" =
       [some "queued", some "processing", some "error"]) ∧
    applyOps (processJobRun cfgLocal c3Env c3Db "j1").final [Op.poll "j1"] "j1" =
      (processJobRun cfgLocal c3Env c3Db "j1").final "j1" := by
  have h := claim_C1 cfgLocal c3Env (fun _ => none) "j1" c3Req 0 rfl
  exact ⟨h.1.1, h.2.1,
    h.2.2.2.1 [Op.poll "j1"]
      (by intro op hop
          rw [List.mem_singleton] at hop
          rw [hop]; trivial)⟩
